import Mathlib

/-!
# ClamavEngine: engine lifecycle, database watcher and scan-result protocol

A shallow embedding of `src/clamav_engine.cpp`.

The wrapper object is the record `ClamavEngine`; every member function is a
pure function on that record, on the state of the engine library (`Lib`) and
on the answers the outside world gives during the call (return codes of the
library, existence of the database path, contents of the database directory).
The library itself is not part of the repository: its functions are modelled
only as far as the wrapper observes them, and every answer the wrapper tests
for failure is an input of the model.
-/

namespace Clamav

/-! ## Constants of the engine library header -/

/-- Return code `CL_SUCCESS` of the engine library (header not in the repository). -/
def CL_SUCCESS : Int := 0

/-- Return code `CL_CLEAN` of the engine library; the same value as `CL_SUCCESS`. -/
def CL_CLEAN : Int := 0

/-- Return code `CL_VIRUS` of the engine library. -/
def CL_VIRUS : Int := 1

/-- Return code `CL_ENULLARG` of the engine library. -/
def CL_ENULLARG : Int := 2

/-- Return code `CL_EOPEN` of the engine library. -/
def CL_EOPEN : Int := 8

/-- The numeric engine fields the wrapper reads and writes. -/
inductive cl_engine_field where
  | CL_ENGINE_MAX_SCANSIZE
  | CL_ENGINE_MAX_FILESIZE
deriving DecidableEq, Repr

/-- The eleven `CL_SCAN_*` flags used by `settingMaskInit`. Their values live in
the library header, so they are parameters of the model. -/
structure ScanFlags where
  CL_SCAN_ARCHIVE : Nat
  CL_SCAN_MAIL : Nat
  CL_SCAN_OLE2 : Nat
  CL_SCAN_PDF : Nat
  CL_SCAN_HTML : Nat
  CL_SCAN_PE : Nat
  CL_SCAN_ALGORITHMIC : Nat
  CL_SCAN_ELF : Nat
  CL_SCAN_SWF : Nat
  CL_SCAN_XMLDOCS : Nat
  CL_SCAN_HWP3 : Nat
deriving DecidableEq, Repr

/-! ## Data model -/

/-- Verdict stored in `ClamavScanResult::stat` (enumeration of `clamav_engine.h`). -/
inductive ScanStat where
  | kScanStatUnknow
  | kScanStatIsVIRUS
  | kScanStatNotVIRUS
deriving DecidableEq, Repr

/-- Per-call result context `ClamavScanResult`. `size` is the `unsigned long`
scanned counter; `type` is the content of the character buffer, byte by byte. -/
structure ClamavScanResult where
  stat : ScanStat
  virname : Option String
  size : Nat
  type : List Nat
deriving DecidableEq, Repr

/-- Argument of `setSettings`: the two limits; `0` means "leave untouched". -/
structure ClamavSettings where
  max_file_size : Int
  max_scan_size : Int
deriving DecidableEq, Repr

/-- One entry of `cvd_info_list_`: file name and the header returned by `cl_cvdhead`. -/
structure ClamavVDInfo where
  name : String
  info : Option Nat
deriving DecidableEq, Repr

/-- The limits carried by `cl_engine_settings_copy` / `cl_engine_settings_apply`. -/
structure cl_settings where
  maxscansize : Int
  maxfilesize : Int
deriving DecidableEq, Repr

/-- An engine object of the library, as far as the wrapper can observe it. -/
structure cl_engine where
  limits : cl_settings
  loaded : Bool
  compiled : Bool
  cb_pre_scan : Bool
deriving DecidableEq, Repr

/-- Contents of the database directory: database file names with their modification times. -/
abbrev DirState := List (String × Nat)

/-- The stat token `struct cl_stat`: `dir` is absent after `cl_statfree`. -/
structure cl_stat where
  dir : Option String
  stattab : DirState
deriving DecidableEq, Repr

/-- Library calls that create or release a resource, in the order they were issued. -/
inductive Call where
  | engine_new (h : Nat)
  | engine_free (h : Nat)
  | fmap_open (m : Nat)
  | scanmap (m : Nat)
  | fmap_close (m : Nat)
deriving DecidableEq, Repr

/-- State of the engine library: the live engine objects by handle, the next
handle `cl_engine_new` hands out, the limits a new engine starts with, and
the log of resource calls. -/
structure Lib where
  defaults : cl_settings
  engines : List (Nat × cl_engine)
  fresh : Nat
  calls : List Call
deriving DecidableEq, Repr

/-- The wrapper object: the data members of class `ClamavEngine`. -/
structure ClamavEngine where
  db_path_ : String
  engine_ : Option Nat
  dbstat_ : Option cl_stat
  sig_num_ : Nat
  err_info_ : String
  cvd_info_list_ : List ClamavVDInfo
  setting_mask_map_ : List (String × Nat)
deriving DecidableEq, Repr

/-! ## The engine library, as observed by the wrapper -/

/-- The engine object behind handle `h`, if it is live. -/
def engineAt : List (Nat × cl_engine) → Nat → Option cl_engine
  | [], _ => none
  | (k, e) :: rest, h => if k = h then some e else engineAt rest h

/-- Apply `f` to the engine object behind handle `h`. -/
def updateAt (f : cl_engine → cl_engine) : List (Nat × cl_engine) → Nat → List (Nat × cl_engine)
  | [], _ => []
  | (k, e) :: rest, h => (k, if k = h then f e else e) :: updateAt f rest h

/-- Drop the engine object behind handle `h`. -/
def removeAt : List (Nat × cl_engine) → Nat → List (Nat × cl_engine)
  | [], _ => []
  | (k, e) :: rest, h => if k = h then removeAt rest h else (k, e) :: removeAt rest h

/-- Model of `cl_engine_new`: `ok` says whether the allocation succeeds; a new
engine has the default limits, nothing loaded, nothing compiled, no callback. -/
def cl_engine_new (ok : Bool) (lib : Lib) : Option Nat × Lib :=
  if ok then
    (some lib.fresh,
      { lib with
        engines := (lib.fresh, ⟨lib.defaults, false, false, false⟩) :: lib.engines
        fresh := lib.fresh + 1
        calls := lib.calls ++ [Call.engine_new lib.fresh] })
  else (none, lib)

/-- Model of `cl_engine_free` on a non-null handle. -/
def cl_engine_free (h : Nat) (lib : Lib) : Lib :=
  { lib with engines := removeAt lib.engines h, calls := lib.calls ++ [Call.engine_free h] }

/-- Model of `cl_engine_settings_copy`: `ok` says whether the copy could be allocated. -/
def cl_engine_settings_copy (ok : Bool) (h : Nat) (lib : Lib) : Option cl_settings :=
  if ok then (engineAt lib.engines h).map (fun e => e.limits) else none

/-- Modelled from the spec: `applySettings(handle, settings)` of the engine
library (`cl_engine_settings_apply`), whose code is not in the repository and of
which the spec says that it reapplies the copied settings. The limits are
carried over to the engine; `code` is the return code, an input of the model,
which the wrapper only logs. -/
def cl_engine_settings_apply (code : Int) (h : Nat) (st : cl_settings) (lib : Lib) : Int × Lib :=
  (code, { lib with engines := updateAt (fun e => { e with limits := st }) lib.engines h })

/-- Write one numeric field of a settings record. -/
def setField (field : cl_engine_field) (num : Int) (st : cl_settings) : cl_settings :=
  match field with
  | .CL_ENGINE_MAX_SCANSIZE => { st with maxscansize := num }
  | .CL_ENGINE_MAX_FILESIZE => { st with maxfilesize := num }

/-- Read one numeric field of a settings record. -/
def getField (field : cl_engine_field) (st : cl_settings) : Int :=
  match field with
  | .CL_ENGINE_MAX_SCANSIZE => st.maxscansize
  | .CL_ENGINE_MAX_FILESIZE => st.maxfilesize

/-- Model of `cl_engine_set_num`: a null engine is refused with `CL_ENULLARG`. -/
def cl_engine_set_num (engine : Option Nat) (field : cl_engine_field) (num : Int) (lib : Lib) :
    Int × Lib :=
  match engine with
  | none => (CL_ENULLARG, lib)
  | some h =>
    (CL_SUCCESS,
      { lib with
        engines := (updateAt (fun e => { e with limits := setField field num e.limits })
          lib.engines h) })

/-- Model of `cl_engine_get_num` (error pointer `NULL`): `-1` when there is no engine. -/
def cl_engine_get_num (engine : Option Nat) (field : cl_engine_field) (lib : Lib) : Int :=
  match engine with
  | none => -1
  | some h =>
    match engineAt lib.engines h with
    | none => -1
    | some e => getField field e.limits

/-- Model of `cl_load`: `code` is the return code; on success the engine holds loaded signatures. -/
def cl_load (h : Nat) (code : Int) (lib : Lib) : Int × Lib :=
  if code = CL_SUCCESS then
    (CL_SUCCESS, { lib with engines := updateAt (fun e => { e with loaded := true }) lib.engines h })
  else (code, lib)

/-- Model of `cl_engine_compile`: `code` is the return code; on success the engine is compiled. -/
def cl_engine_compile (h : Nat) (code : Int) (lib : Lib) : Int × Lib :=
  if code = CL_SUCCESS then
    (CL_SUCCESS,
      { lib with engines := updateAt (fun e => { e with compiled := true }) lib.engines h })
  else (code, lib)

/-- Model of `cl_engine_set_clcb_pre_scan`: registers the callback on the engine. -/
def cl_engine_set_clcb_pre_scan (h : Nat) (lib : Lib) : Lib :=
  { lib with engines := updateAt (fun e => { e with cb_pre_scan := true }) lib.engines h }

/-- Model of `cl_statfree`: the token no longer names a directory. -/
def cl_statfree (_dbstat : cl_stat) : cl_stat :=
  ⟨none, []⟩

/-- Modelled from the spec: `statDirectory(path) -> snapshot` of the engine
library (`cl_statinidir`), whose code is not in the repository. The token
handed in is overwritten. `dir` is the directory as the call finds it, `none`
when it cannot be opened; a failed call leaves the token freed. -/
def cl_statinidir (dirname : String) (_dbstat : cl_stat) (dir : Option DirState) : Int × cl_stat :=
  match dir with
  | none => (CL_EOPEN, ⟨none, []⟩)
  | some d => (CL_SUCCESS, ⟨some dirname, d⟩)

/-- Modelled from the spec: `checkDirectoryChanged(snapshot) -> bool` of the
engine library (`cl_statchkdir`), whose code is not in the repository: `1` when
the file set or timestamps of the directory differ from the token, `0` when
they do not, an error code when the token is freed or the directory cannot be
opened. -/
def cl_statchkdir (dbstat : cl_stat) (dir : Option DirState) : Int :=
  match dbstat.dir with
  | none => CL_ENULLARG
  | some _ =>
    match dir with
    | none => CL_EOPEN
    | some d => if d = dbstat.stattab then CL_SUCCESS else 1

/-- What the engine answers to one scan call: the return code, the signature
name it wrote through `virname` (if any), the amount it added to the scanned
counter, and the type label it handed to the registered pre-scan callback (if
it ran the callback), byte by byte. -/
structure ScanReply where
  code : Int
  virname : Option String
  scanned : Nat
  ftype : Option (List Nat)
deriving DecidableEq, Repr

/-- The pre-scan callback `pre_scan`: copies the type label into the result
context and always returns `CL_CLEAN`. `cap` is `sizeof(result->type)`:
`snprintf` keeps the first `cap - 1` bytes of the label, and writes nothing
into a buffer of size `0`. -/
def pre_scan (cap : Nat) (_fd : Int) (type : List Nat) (context : ClamavScanResult) :
    Int × ClamavScanResult :=
  (CL_CLEAN, if cap = 0 then context else { context with type := type.take (cap - 1) })

/-- Effect of a scan primitive on the result context it was handed: the
signature name is written when the engine has one, the `unsigned long` counter
grows by the amount scanned (64 bits wide, wrapping), and the type label goes
through `pre_scan` when the engine runs the callback. -/
def scanEffect (cap : Nat) (fd : Int) (reply : ScanReply) (result : ClamavScanResult) :
    ClamavScanResult :=
  let result :=
    match reply.ftype with
    | some label => (pre_scan cap fd label result).2
    | none => result
  { result with
    virname := match reply.virname with
      | some v => some v
      | none => result.virname
    size := (result.size + reply.scanned) % 2 ^ 64 }

/-- Model of `cl_scandesc_callback`. -/
def cl_scandesc_callback (cap : Nat) (fd : Int) (result : ClamavScanResult)
    (_engine : Option Nat) (_scan_opt : Nat) (reply : ScanReply) : Int × ClamavScanResult :=
  (reply.code, scanEffect cap fd reply result)

/-- Model of `cl_fmap_open_memory`: `map` is the mapping handed out, `none` for `NULL`. -/
def cl_fmap_open_memory (_buf : List Nat) (map : Option Nat) (lib : Lib) : Option Nat × Lib :=
  match map with
  | none => (none, lib)
  | some m => (some m, { lib with calls := lib.calls ++ [Call.fmap_open m] })

/-- Model of `cl_scanmap_callback`. There is no file descriptor behind a memory map; the
callback is handed `-1`, which `pre_scan` does not read. -/
def cl_scanmap_callback (cap : Nat) (m : Nat) (result : ClamavScanResult) (_engine : Option Nat)
    (_scan_opt : Nat) (reply : ScanReply) (lib : Lib) : Int × ClamavScanResult × Lib :=
  (reply.code, scanEffect cap (-1) reply result,
    { lib with calls := lib.calls ++ [Call.scanmap m] })

/-- Model of `cl_fmap_close`. -/
def cl_fmap_close (m : Nat) (lib : Lib) : Lib :=
  { lib with calls := lib.calls ++ [Call.fmap_close m] }

/-! ## The wrapper: scan entry points -/

/-- Embedding of `ClamavEngine::scanFileFd`; `type_cap` is `sizeof(result->type)`,
a constant of `clamav_engine.h`. -/
def ClamavEngine.scanFileFd (self : ClamavEngine) (type_cap : Nat) (fd : Int)
    (result : ClamavScanResult) (scan_opt : Nat) (reply : ScanReply) : Int × ClamavScanResult :=
  let r := cl_scandesc_callback type_cap fd result self.engine_ scan_opt reply
  let ret := r.1
  let result := r.2
  if ret = CL_VIRUS then
    (0, { result with stat := ScanStat.kScanStatIsVIRUS })
  else if ret = CL_CLEAN then
    (0, { result with stat := ScanStat.kScanStatNotVIRUS })
  else
    (-1, { result with stat := ScanStat.kScanStatUnknow })

/-- Embedding of `ClamavEngine::ScanFmap`; `type_cap` is `sizeof(result->type)`,
a constant of `clamav_engine.h`. -/
def ClamavEngine.ScanFmap (self : ClamavEngine) (type_cap : Nat) (buf : List Nat)
    (result : ClamavScanResult) (scan_opt : Nat) (map : Option Nat) (reply : ScanReply)
    (lib : Lib) :
    Int × ClamavScanResult × Lib :=
  match cl_fmap_open_memory buf map lib with
  | (none, lib) => (-1, { result with stat := ScanStat.kScanStatUnknow }, lib)
  | (some m, lib) =>
    let r := cl_scanmap_callback type_cap m result self.engine_ scan_opt reply lib
    let ret := r.1
    let result := r.2.1
    let lib := r.2.2
    if ret = CL_VIRUS then
      (0, { result with stat := ScanStat.kScanStatIsVIRUS }, cl_fmap_close m lib)
    else if ret = CL_CLEAN then
      (0, { result with stat := ScanStat.kScanStatNotVIRUS }, cl_fmap_close m lib)
    else
      (-1, { result with stat := ScanStat.kScanStatUnknow }, cl_fmap_close m lib)

/-- Embedding of `ClamavEngine::scanFileFdRaw`; `CL_SCAN_RAW` is a constant of the library header. -/
def ClamavEngine.scanFileFdRaw (self : ClamavEngine) (type_cap : Nat) (CL_SCAN_RAW : Nat)
    (fd : Int) (result : ClamavScanResult) (reply : ScanReply) : Int × ClamavScanResult :=
  self.scanFileFd type_cap fd result CL_SCAN_RAW reply

/-- Embedding of `ClamavEngine::scanFileFdStd`; `CL_SCAN_STDOPT` is a constant of the library header. -/
def ClamavEngine.scanFileFdStd (self : ClamavEngine) (type_cap : Nat) (CL_SCAN_STDOPT : Nat)
    (fd : Int) (result : ClamavScanResult) (reply : ScanReply) : Int × ClamavScanResult :=
  self.scanFileFd type_cap fd result CL_SCAN_STDOPT reply

/-! ## The wrapper: setting-mask registry -/

/-- Lookup in the registry (`std::map::find`). -/
def mapFind : List (String × Nat) → String → Option Nat
  | [], _ => none
  | (k, v) :: rest, key => if k = key then some v else mapFind rest key

/-- Assignment through `operator[]`: overwrite the entry of `key`, or add one. -/
def mapSet : List (String × Nat) → String → Nat → List (String × Nat)
  | [], key, v => [(key, v)]
  | (k, w) :: rest, key, v => if k = key then (k, v) :: rest else (k, w) :: mapSet rest key v

/-- Embedding of `ClamavEngine::settingMaskInit`. -/
def ClamavEngine.settingMaskInit (self : ClamavEngine) (flags : ScanFlags) : ClamavEngine :=
  let m := self.setting_mask_map_
  let m := mapSet m "ARCHIVE" flags.CL_SCAN_ARCHIVE
  let m := mapSet m "MAIL" flags.CL_SCAN_MAIL
  let m := mapSet m "OLE2" flags.CL_SCAN_OLE2
  let m := mapSet m "PDF" flags.CL_SCAN_PDF
  let m := mapSet m "HTML" flags.CL_SCAN_HTML
  let m := mapSet m "PE" flags.CL_SCAN_PE
  let m := mapSet m "ALGORITHMIC" flags.CL_SCAN_ALGORITHMIC
  let m := mapSet m "ELF" flags.CL_SCAN_ELF
  let m := mapSet m "SWF" flags.CL_SCAN_SWF
  let m := mapSet m "XMLDOCS" flags.CL_SCAN_XMLDOCS
  let m := mapSet m "HWP3" flags.CL_SCAN_HWP3
  { self with setting_mask_map_ := m }

/-- Embedding of `ClamavEngine::scanSettingMask`. -/
def ClamavEngine.scanSettingMask (self : ClamavEngine) (setting_section : String) : Nat :=
  match mapFind self.setting_mask_map_ setting_section with
  | some v => v
  | none => 0

/-! ## The wrapper: construction and engine lifecycle -/

/-- What the outside world answers during construction: the return code of
`cl_init`, whether `cl_engine_new` succeeds, and the database directory as
`cl_statinidir` finds it (`none` when it cannot be opened). -/
structure CtorEnv where
  init_ret : Int
  new_ok : Bool
  dir : Option DirState
deriving DecidableEq, Repr

/-- Embedding of the constructor `ClamavEngine::ClamavEngine`. -/
def ClamavEngine.construct (path : String) (flags : ScanFlags) (env : CtorEnv) (lib : Lib) :
    ClamavEngine × Lib :=
  let self : ClamavEngine := ⟨path, none, none, 0, "", [], []⟩
  let self := if env.init_ret ≠ CL_SUCCESS then
      { self with err_info_ := "Can\x27t initialize libclamav" } else self
  let r := cl_engine_new env.new_ok lib
  let self := { self with engine_ := r.1 }
  let lib := r.2
  let self := if self.engine_ = none then
      { self with err_info_ := "Can\x27t create new engine" } else self
  let self := { self with dbstat_ := some ⟨none, []⟩ }
  let st := cl_statinidir self.db_path_ ⟨none, []⟩ env.dir
  let self := { self with dbstat_ := some st.2 }
  let self := if st.1 ≠ 0 then { self with err_info_ := "cl_statinidir error" } else self
  (self.settingMaskInit flags, lib)

/-- Embedding of `ClamavEngine::setSettings`. -/
def ClamavEngine.setSettings (self : ClamavEngine) (settings : ClamavSettings) (lib : Lib) :
    Int × Lib :=
  let lib := if settings.max_file_size ≠ 0 then
      (cl_engine_set_num self.engine_ .CL_ENGINE_MAX_FILESIZE settings.max_file_size lib).2
    else lib
  let lib := if settings.max_scan_size ≠ 0 then
      (cl_engine_set_num self.engine_ .CL_ENGINE_MAX_SCANSIZE settings.max_scan_size lib).2
    else lib
  (0, lib)

/-- Embedding of `ClamavEngine::getSettings`: returns `0`; the second component
is the pair of values it prints (`CL_ENGINE_MAX_FILESIZE`, `CL_ENGINE_MAX_SCANSIZE`). -/
def ClamavEngine.getSettings (self : ClamavEngine) (lib : Lib) : Int × (Int × Int) :=
  (0, (cl_engine_get_num self.engine_ .CL_ENGINE_MAX_FILESIZE lib,
       cl_engine_get_num self.engine_ .CL_ENGINE_MAX_SCANSIZE lib))

/-- What the outside world answers during `buildEngine`: whether `access` finds
the database path, the files matched by the `*.cvd` pattern with the header
`cl_cvdhead` returns for each, the return code of `cl_load` and the count it
leaves in `sigs`, the return code of `cl_engine_compile`, and the message
`cl_strerror` gives for a code. -/
structure BuildEnv where
  path_ok : Bool
  cvd : List (String × Option Nat)
  load_ret : Int
  load_sigs : Nat
  compile_ret : Int
  cl_strerror : Int → String

/-- Embedding of `ClamavEngine::buildEngine`. -/
def ClamavEngine.buildEngine (self : ClamavEngine) (lib : Lib) (env : BuildEnv) :
    Int × ClamavEngine × Lib :=
  match self.engine_ with
  | none => (-1, { self with err_info_ := "engine_ init NULL" }, lib)
  | some h =>
    if env.path_ok = false then
      (-1, { self with err_info_ := "database path not found" }, lib)
    else
      let self := { self with cvd_info_list_ := env.cvd.map (fun (p : String × Option Nat) => (⟨p.1, p.2⟩ : ClamavVDInfo)) }
      let r := cl_load h env.load_ret lib
      let ret := r.1
      let sigs := env.load_sigs
      let lib := r.2
      if ret ≠ CL_SUCCESS then
        (-1,
          { self with engine_ := none, err_info_ := "database load fail:" ++ env.cl_strerror ret },
          cl_engine_free h lib)
      else
        let r := cl_engine_compile h env.compile_ret lib
        let ret := r.1
        let lib := r.2
        if ret ≠ CL_SUCCESS then
          (-1,
            { self with
              engine_ := none
              err_info_ := "database compile fail:" ++ env.cl_strerror ret },
            cl_engine_free h lib)
        else
          let lib := cl_engine_set_clcb_pre_scan h lib
          (0, { self with sig_num_ := sigs, err_info_ := "OK" }, lib)

/-- What the outside world answers during `reBuildEngine`: whether
`cl_engine_settings_copy` and `cl_engine_new` succeed, the return code of
`cl_engine_settings_apply`, and the answers to the `buildEngine` that follows. -/
structure RebuildEnv where
  copy_ok : Bool
  new_ok : Bool
  apply_ret : Int
  build : BuildEnv

/-- Embedding of `ClamavEngine::reBuildEngine`. -/
def ClamavEngine.reBuildEngine (self : ClamavEngine) (lib : Lib) (env : RebuildEnv) :
    Int × ClamavEngine × Lib :=
  let r : Option cl_settings × Lib :=
    match self.engine_ with
    | some h => (cl_engine_settings_copy env.copy_ok h lib, cl_engine_free h lib)
    | none => (none, lib)
  let settings := r.1
  let lib := r.2
  let n := cl_engine_new env.new_ok lib
  let self := { self with engine_ := n.1 }
  let lib := n.2
  let lib :=
    match settings, self.engine_ with
    | some st, some h => (cl_engine_settings_apply env.apply_ret h st lib).2
    | _, _ => lib
  self.buildEngine lib env.build

/-! ## The wrapper: database watcher -/

/-- Embedding of `ClamavEngine::checkDatebaseChanged`. `chk_dir` is the database
directory as `cl_statchkdir` finds it and `ini_dir` as the `cl_statinidir` of
the refresh finds it (`none` when it cannot be opened). -/
def ClamavEngine.checkDatebaseChanged (self : ClamavEngine) (chk_dir ini_dir : Option DirState) :
    Int × ClamavEngine :=
  match self.dbstat_ with
  | some dbstat =>
    let ret := cl_statchkdir dbstat chk_dir
    if 1 = ret then
      let dbstat := cl_statfree dbstat
      let st := cl_statinidir self.db_path_ dbstat ini_dir
      let self := { self with dbstat_ := some st.2 }
      let self := if st.1 ≠ 0 then { self with err_info_ := "cl_statinidir error" } else self
      (ret, self)
    else (ret, self)
  | none => (0, self)

/-! ## Concrete inputs for the examples -/

/-- A library state with no live engine; the limits are sample defaults. -/
def exampleLib : Lib := ⟨⟨104857600, 26214400⟩, [], 0, []⟩

/-- Sample values for the eleven scan flags. -/
def exampleFlags : ScanFlags :=
  ⟨0x1, 0x2, 0x4, 0x4000, 0x10, 0x20, 0x200, 0x2000, 0x400000, 0x1000000, 0x2000000⟩

/-- A sample `cl_strerror`. -/
def exampleStrerror (code : Int) : String :=
  if code = 4 then "Malformed database" else "Unknown error"

/-- Answers to one `buildEngine`: one database file, five signatures. -/
def exampleBuildEnv (path_ok : Bool) (load_ret compile_ret : Int) : BuildEnv :=
  ⟨path_ok, [("/db/main.cvd", some 1)], load_ret, 5, compile_ret, exampleStrerror⟩

/-- An object constructed on "/db" whose directory holds one database file. -/
def exampleFresh : ClamavEngine × Lib :=
  ClamavEngine.construct "/db" exampleFlags ⟨0, true, some [("main.cvd", 1)]⟩ exampleLib

/-- The object of `exampleFresh` after a successful `buildEngine`. -/
def exampleReady : ClamavEngine × Lib :=
  ((exampleFresh.1.buildEngine exampleFresh.2 (exampleBuildEnv true 0 0)).2.1,
   (exampleFresh.1.buildEngine exampleFresh.2 (exampleBuildEnv true 0 0)).2.2)

/-- An object constructed on "/nodb", a path that does not exist. -/
def exampleNoDb : ClamavEngine × Lib :=
  ClamavEngine.construct "/nodb" exampleFlags ⟨0, true, none⟩ exampleLib

/-! ## Facts about the engine table of the library -/

/-- Reading the engine table after an update at handle `h`. -/
theorem engineAt_updateAt (f : cl_engine → cl_engine) (l : List (Nat × cl_engine)) (h k : Nat) :
    engineAt (updateAt f l h) k = if k = h then (engineAt l h).map f else engineAt l k := by
  induction l with
  | nil => simp [engineAt, updateAt]
  | cons p rest ih =>
    obtain ⟨a, e⟩ := p
    by_cases hah : a = h
    · by_cases hkh : k = h
      · simp [engineAt, updateAt, hah, hkh]
      · have hhk : ¬ h = k := fun c => hkh c.symm
        simp [engineAt, updateAt, hah, hkh, hhk, ih]
    · by_cases hkh : k = h
      · subst hkh
        simp [engineAt, updateAt, hah, ih]
      · by_cases hak : a = k
        · subst hak
          simp [engineAt, updateAt, hah]
        · simp [engineAt, updateAt, hah, hkh, hak, ih]

/-- The codes `CL_CLEAN` and `CL_VIRUS` differ. -/
theorem CL_CLEAN_ne_CL_VIRUS : ¬ CL_CLEAN = CL_VIRUS := by decide

/-- Reading the updated handle itself. -/
theorem engineAt_updateAt_self (f : cl_engine → cl_engine) (l : List (Nat × cl_engine)) (h : Nat) :
    engineAt (updateAt f l h) h = (engineAt l h).map f := by
  simp [engineAt_updateAt]

/-- A released handle is no longer live. -/
theorem engineAt_removeAt_self (l : List (Nat × cl_engine)) (h : Nat) :
    engineAt (removeAt l h) h = none := by
  induction l with
  | nil => simp [engineAt, removeAt]
  | cons p rest ih =>
    obtain ⟨a, e⟩ := p
    by_cases hah : a = h
    · simp [removeAt, hah, ih]
    · simp [engineAt, removeAt, hah, ih]

/-! ## Scan-result protocol -/

/-- C1: for every engine return code `code`, `scanFileFd` and `ScanFmap` (over a
buffer whose mapping was opened) give the same return value and verdict:
`CL_VIRUS` gives `0` and `kScanStatIsVIRUS`, `CL_CLEAN` gives `0` and
`kScanStatNotVIRUS`, every other code gives `-1` and `kScanStatUnknow`. The
other contents of the two replies, the result contexts and the option masks are
arbitrary and may differ between the two calls. -/
theorem scan_entry_points_same_outcome (self : ClamavEngine) (type_cap : Nat) (code : Int)
    (fd : Int) (res1 : ClamavScanResult) (opt1 : Nat) (v1 : Option String) (n1 : Nat)
    (t1 : Option (List Nat))
    (buf : List Nat) (res2 : ClamavScanResult) (opt2 : Nat) (v2 : Option String) (n2 : Nat)
    (t2 : Option (List Nat)) (m : Nat) (lib : Lib) :
    let a := self.scanFileFd type_cap fd res1 opt1 ⟨code, v1, n1, t1⟩
    let b := self.ScanFmap type_cap buf res2 opt2 (some m) ⟨code, v2, n2, t2⟩ lib
    (a.1, a.2.stat) = (b.1, b.2.1.stat) ∧
    (a.1, a.2.stat) =
      (if code = CL_VIRUS then ((0 : Int), ScanStat.kScanStatIsVIRUS)
       else if code = CL_CLEAN then ((0 : Int), ScanStat.kScanStatNotVIRUS)
       else ((-1 : Int), ScanStat.kScanStatUnknow)) := by
  simp only [ClamavEngine.scanFileFd, ClamavEngine.ScanFmap, cl_scandesc_callback,
    cl_fmap_open_memory, cl_scanmap_callback]
  by_cases hv : code = CL_VIRUS
  · simp [hv]
  · by_cases hc : code = CL_CLEAN
    · simp [hc, CL_CLEAN_ne_CL_VIRUS]
    · simp [hv, hc]

/-- C8: for every buffer, option mask and engine reply, when `ScanFmap` opens a
mapping `m` it issues, in this order and nothing else, the open, the scan and
one release of `m`, so the release count of `m` grows by exactly one on the
infected, clean and error paths alike; when the open fails it issues no call at
all, returns `-1` and sets the verdict to `kScanStatUnknow`. -/
theorem ScanFmap_releases_mapping_once (self : ClamavEngine) (type_cap : Nat) (buf : List Nat)
    (result : ClamavScanResult) (scan_opt : Nat) (map : Option Nat) (reply : ScanReply)
    (lib : Lib) :
    let r := self.ScanFmap type_cap buf result scan_opt map reply lib
    match map with
    | some m =>
      r.2.2.calls = lib.calls ++ [Call.fmap_open m, Call.scanmap m, Call.fmap_close m] ∧
      r.2.2.calls.count (Call.fmap_close m) = lib.calls.count (Call.fmap_close m) + 1
    | none =>
      r.2.2.calls = lib.calls ∧ r.1 = -1 ∧ r.2.1.stat = ScanStat.kScanStatUnknow := by
  cases map with
  | none => simp [ClamavEngine.ScanFmap, cl_fmap_open_memory]
  | some m =>
    simp only [ClamavEngine.ScanFmap, cl_fmap_open_memory, cl_scanmap_callback, cl_fmap_close]
    by_cases hv : reply.code = CL_VIRUS
    · simp [hv, List.count_append]
    · by_cases hc : reply.code = CL_CLEAN
      · simp [hc, CL_CLEAN_ne_CL_VIRUS, List.count_append]
      · simp [hv, hc, List.count_append]

/-! ## Setting-mask registry -/

/-- The registry of a constructed object holds exactly the eleven entries of `settingMaskInit`. -/
theorem construct_mask_map (path : String) (flags : ScanFlags) (env : CtorEnv) (lib : Lib) :
    (ClamavEngine.construct path flags env lib).1.setting_mask_map_ =
      [("ARCHIVE", flags.CL_SCAN_ARCHIVE), ("MAIL", flags.CL_SCAN_MAIL),
       ("OLE2", flags.CL_SCAN_OLE2), ("PDF", flags.CL_SCAN_PDF), ("HTML", flags.CL_SCAN_HTML),
       ("PE", flags.CL_SCAN_PE), ("ALGORITHMIC", flags.CL_SCAN_ALGORITHMIC),
       ("ELF", flags.CL_SCAN_ELF), ("SWF", flags.CL_SCAN_SWF),
       ("XMLDOCS", flags.CL_SCAN_XMLDOCS), ("HWP3", flags.CL_SCAN_HWP3)] := by
  have key : ∀ s : ClamavEngine, s.setting_mask_map_ = [] →
      (s.settingMaskInit flags).setting_mask_map_ =
      [("ARCHIVE", flags.CL_SCAN_ARCHIVE), ("MAIL", flags.CL_SCAN_MAIL),
       ("OLE2", flags.CL_SCAN_OLE2), ("PDF", flags.CL_SCAN_PDF), ("HTML", flags.CL_SCAN_HTML),
       ("PE", flags.CL_SCAN_PE), ("ALGORITHMIC", flags.CL_SCAN_ALGORITHMIC),
       ("ELF", flags.CL_SCAN_ELF), ("SWF", flags.CL_SCAN_SWF),
       ("XMLDOCS", flags.CL_SCAN_XMLDOCS), ("HWP3", flags.CL_SCAN_HWP3)] := by
    intro s hs
    simp [ClamavEngine.settingMaskInit, hs, mapSet]
  apply key
  simp only [ClamavEngine.construct]
  split_ifs <;> rfl

/-- C9: on a constructed object, `scanSettingMask` returns for each of the eleven
registered names (ARCHIVE, MAIL, OLE2, PDF, HTML, PE, ALGORITHMIC, ELF, SWF,
XMLDOCS, HWP3) the flag registered by `settingMaskInit` and `0` for every other
name; OR-ing the masks of "PE" and "UNKNOWN_CATEGORY" gives exactly the PE flag. -/
theorem scanSettingMask_registry (path : String) (flags : ScanFlags) (env : CtorEnv) (lib : Lib)
    (name : String) :
    let self := (ClamavEngine.construct path flags env lib).1
    self.scanSettingMask name =
      (if name = "ARCHIVE" then flags.CL_SCAN_ARCHIVE
       else if name = "MAIL" then flags.CL_SCAN_MAIL
       else if name = "OLE2" then flags.CL_SCAN_OLE2
       else if name = "PDF" then flags.CL_SCAN_PDF
       else if name = "HTML" then flags.CL_SCAN_HTML
       else if name = "PE" then flags.CL_SCAN_PE
       else if name = "ALGORITHMIC" then flags.CL_SCAN_ALGORITHMIC
       else if name = "ELF" then flags.CL_SCAN_ELF
       else if name = "SWF" then flags.CL_SCAN_SWF
       else if name = "XMLDOCS" then flags.CL_SCAN_XMLDOCS
       else if name = "HWP3" then flags.CL_SCAN_HWP3
       else 0) ∧
    self.scanSettingMask "PE" ||| self.scanSettingMask "UNKNOWN_CATEGORY" = flags.CL_SCAN_PE := by
  have hm := construct_mask_map path flags env lib
  generalize (ClamavEngine.construct path flags env lib).1 = s at hm
  intro self
  have hs : self = s := rfl
  rw [hs]
  unfold ClamavEngine.scanSettingMask
  rw [hm]
  constructor
  · simp only [mapFind]
    by_cases h1 : name = "ARCHIVE"
    · subst h1; simp
    rw [if_neg h1, if_neg (Ne.symm h1)]
    by_cases h2 : name = "MAIL"
    · subst h2; simp
    rw [if_neg h2, if_neg (Ne.symm h2)]
    by_cases h3 : name = "OLE2"
    · subst h3; simp
    rw [if_neg h3, if_neg (Ne.symm h3)]
    by_cases h4 : name = "PDF"
    · subst h4; simp
    rw [if_neg h4, if_neg (Ne.symm h4)]
    by_cases h5 : name = "HTML"
    · subst h5; simp
    rw [if_neg h5, if_neg (Ne.symm h5)]
    by_cases h6 : name = "PE"
    · subst h6; simp
    rw [if_neg h6, if_neg (Ne.symm h6)]
    by_cases h7 : name = "ALGORITHMIC"
    · subst h7; simp
    rw [if_neg h7, if_neg (Ne.symm h7)]
    by_cases h8 : name = "ELF"
    · subst h8; simp
    rw [if_neg h8, if_neg (Ne.symm h8)]
    by_cases h9 : name = "SWF"
    · subst h9; simp
    rw [if_neg h9, if_neg (Ne.symm h9)]
    by_cases h10 : name = "XMLDOCS"
    · subst h10; simp
    rw [if_neg h10, if_neg (Ne.symm h10)]
    by_cases h11 : name = "HWP3"
    · subst h11; simp
    rw [if_neg h11, if_neg (Ne.symm h11)]
  · simp [mapFind]

/-! ## Engine lifecycle -/

/-- C4 (amended): for a lifecycle freshly constructed on a database path that
does not exist, `buildEngine` returns `-1` and leaves the library untouched.
When the constructor obtained an engine, the recorded reason is "database path
not found" and the object still holds that engine, which is live, not loaded
and not compiled; when the constructor obtained no engine, the reason is
"engine_ init NULL" and no engine is held. -/
theorem buildEngine_path_not_found (path : String) (flags : ScanFlags) (cenv : CtorEnv)
    (lib : Lib) (benv : BuildEnv) (hP : benv.path_ok = false) :
    let c := ClamavEngine.construct path flags cenv lib
    let b := c.1.buildEngine c.2 benv
    b.1 = -1 ∧ b.2.2 = c.2 ∧
    (cenv.new_ok = true →
      b.2.1.err_info_ = "database path not found" ∧ b.2.1.engine_ = some lib.fresh ∧
      engineAt b.2.2.engines lib.fresh = some ⟨lib.defaults, false, false, false⟩) ∧
    (cenv.new_ok = false →
      b.2.1.err_info_ = "engine_ init NULL" ∧ b.2.1.engine_ = none) := by
  cases hn : cenv.new_ok <;>
    simp [ClamavEngine.construct, ClamavEngine.buildEngine, ClamavEngine.settingMaskInit,
      cl_engine_new, hn, hP, engineAt] <;>
    split_ifs <;> simp [engineAt]

/-- How `buildEngine` ends when the object holds a live engine, by cause: a
missing path leaves everything as it was; a failed load or compile releases the
engine and leaves the handle absent; otherwise the engine is loaded, compiled
and carries the callback. -/
theorem buildEngine_outcome (self : ClamavEngine) (lib : Lib) (env : BuildEnv) (h : Nat)
    (e : cl_engine) (hE : self.engine_ = some h) (hLive : engineAt lib.engines h = some e) :
    let r := self.buildEngine lib env
    if env.path_ok = false then
      r.1 = -1 ∧ r.2.1.engine_ = some h ∧ r.2.2 = lib
    else if env.load_ret ≠ CL_SUCCESS ∨ env.compile_ret ≠ CL_SUCCESS then
      r.1 = -1 ∧ r.2.1.engine_ = none ∧ r.2.2.calls = lib.calls ++ [Call.engine_free h] ∧
      engineAt r.2.2.engines h = none
    else
      r.1 = 0 ∧ r.2.1.engine_ = some h ∧ r.2.2.calls = lib.calls ∧
      engineAt r.2.2.engines h =
        some { e with loaded := true, compiled := true, cb_pre_scan := true } := by
  cases hp : env.path_ok
  · simp [ClamavEngine.buildEngine, hE]
    simp [hp]
  · by_cases hl : env.load_ret = CL_SUCCESS
    · by_cases hc : env.compile_ret = CL_SUCCESS
      · simp [ClamavEngine.buildEngine, hE, hp, hl, hc, cl_load, cl_engine_compile,
          cl_engine_set_clcb_pre_scan, engineAt_updateAt_self, hLive]
      · simp [ClamavEngine.buildEngine, hE, hp, hl, hc, cl_load, cl_engine_compile,
          cl_engine_free, engineAt_removeAt_self]
    · simp [ClamavEngine.buildEngine, hE, hp, hl, cl_load, cl_engine_free,
        engineAt_removeAt_self]

/-- When `cl_engine_new` succeeds, `reBuildEngine` is `buildEngine` on the new engine, which is
live, not loaded and not compiled; the calls issued so far are the release of the previous
engine (if any) and the creation; the new engine carries the limits of the previous one when
that one was live and the settings copy succeeded. -/
theorem reBuildEngine_prepares (self : ClamavEngine) (lib : Lib) (env : RebuildEnv)
    (hn : env.new_ok = true) :
    ∃ lib3 st,
      self.reBuildEngine lib env =
        ({ self with engine_ := some lib.fresh } : ClamavEngine).buildEngine lib3 env.build ∧
      lib3.calls = lib.calls ++
        (match self.engine_ with
          | some h => [Call.engine_free h]
          | none => []) ++ [Call.engine_new lib.fresh] ∧
      engineAt lib3.engines lib.fresh = some ⟨st, false, false, false⟩ ∧
      (∀ h e, self.engine_ = some h → engineAt lib.engines h = some e →
        env.copy_ok = true → st = e.limits) := by
  cases hs : self.engine_ with
  | none =>
    refine ⟨(cl_engine_new true lib).2, lib.defaults, ?_, ?_, ?_, ?_⟩
    · simp [ClamavEngine.reBuildEngine, cl_engine_new, hn, hs]
    · simp [cl_engine_new]
    · simp [cl_engine_new, engineAt]
    · simp
  | some h =>
    cases hco : env.copy_ok
    · refine ⟨(cl_engine_new true (cl_engine_free h lib)).2, lib.defaults, ?_, ?_, ?_, ?_⟩
      · simp [ClamavEngine.reBuildEngine, cl_engine_new, hn, hs, hco, cl_engine_settings_copy,
          cl_engine_free]
      · simp [cl_engine_new, cl_engine_free]
      · simp [cl_engine_new, cl_engine_free, engineAt]
      · simp
    · cases hlive : engineAt lib.engines h with
      | none =>
        refine ⟨(cl_engine_new true (cl_engine_free h lib)).2, lib.defaults, ?_, ?_, ?_, ?_⟩
        · simp [ClamavEngine.reBuildEngine, cl_engine_new, hn, hs, hco, hlive,
            cl_engine_settings_copy, cl_engine_free]
        · simp [cl_engine_new, cl_engine_free]
        · simp [cl_engine_new, cl_engine_free, engineAt]
        · intro h1 e1 hh he
          injection hh with hh
          subst hh
          rw [hlive] at he
          exact absurd he (by simp)
      | some e =>
        refine ⟨(cl_engine_settings_apply env.apply_ret lib.fresh e.limits
            (cl_engine_new true (cl_engine_free h lib)).2).2, e.limits, ?_, ?_, ?_, ?_⟩
        · simp [ClamavEngine.reBuildEngine, cl_engine_new, hn, hs, hco, hlive,
            cl_engine_settings_copy, cl_engine_free]
        · simp [cl_engine_new, cl_engine_free, cl_engine_settings_apply]
        · simp [cl_engine_new, cl_engine_free, cl_engine_settings_apply,
            engineAt_updateAt_self, engineAt]
        · intro h1 e1 hh he _
          injection hh with hh
          subst hh
          rw [hlive] at he
          injection he with he
          rw [he]

/-- C5 (amended): for every object state, library state and behaviour of the
outside world, the outcome of `reBuildEngine` follows from what failed. When the
engine creation fails it returns `-1` and no engine is held. Otherwise, when the
database path is not found it returns `-1` and the object holds the engine
created by this call, live, neither loaded nor compiled. Otherwise, when the
load or the compile fails it returns `-1`, the new engine has been released
again and no engine is held. Otherwise it returns `0` and the owned handle is
the engine created by this call, loaded, compiled and with the pre-scan
callback installed. Whenever an engine was created, the calls issued start with
the release of the previous engine (if there was one) and the creation of the
new one. -/
theorem reBuildEngine_outcome (self : ClamavEngine) (lib : Lib) (env : RebuildEnv) :
    let r := self.reBuildEngine lib env
    let freed : List Call :=
      match self.engine_ with
      | some h => [Call.engine_free h]
      | none => []
    if env.new_ok = false then
      r.1 = -1 ∧ r.2.1.engine_ = none ∧ r.2.2.calls = lib.calls ++ freed
    else if env.build.path_ok = false then
      r.1 = -1 ∧ r.2.1.engine_ = some lib.fresh ∧
      r.2.2.calls = lib.calls ++ freed ++ [Call.engine_new lib.fresh] ∧
      ∃ e, engineAt r.2.2.engines lib.fresh = some e ∧
        e.loaded = false ∧ e.compiled = false
    else if env.build.load_ret ≠ CL_SUCCESS ∨ env.build.compile_ret ≠ CL_SUCCESS then
      r.1 = -1 ∧ r.2.1.engine_ = none ∧
      r.2.2.calls =
        lib.calls ++ freed ++ [Call.engine_new lib.fresh, Call.engine_free lib.fresh] ∧
      engineAt r.2.2.engines lib.fresh = none
    else
      r.1 = 0 ∧ r.2.1.engine_ = some lib.fresh ∧
      r.2.2.calls = lib.calls ++ freed ++ [Call.engine_new lib.fresh] ∧
      ∃ e, engineAt r.2.2.engines lib.fresh = some e ∧
        e.loaded = true ∧ e.compiled = true ∧ e.cb_pre_scan = true := by
  intro r freed
  cases hn : env.new_ok
  · rw [if_pos rfl]
    cases hs : self.engine_ <;>
      simp [r, freed, ClamavEngine.reBuildEngine, ClamavEngine.buildEngine, cl_engine_new, hn,
        hs, cl_engine_free]
  · rw [if_neg (by simp)]
    obtain ⟨lib3, st, hr, hcalls, heng, -⟩ := reBuildEngine_prepares self lib env hn
    have hb := buildEngine_outcome ({ self with engine_ := some lib.fresh } : ClamavEngine)
      lib3 env.build lib.fresh _ rfl heng
    rw [← hr] at hb
    by_cases hp : env.build.path_ok = false
    · rw [if_pos hp] at hb ⊢
      obtain ⟨h1, h2, h3⟩ := hb
      exact ⟨h1, h2, by rw [h3, hcalls], _, by rw [h3]; exact heng, rfl, rfl⟩
    · rw [if_neg hp] at hb ⊢
      by_cases hf : env.build.load_ret ≠ CL_SUCCESS ∨ env.build.compile_ret ≠ CL_SUCCESS
      · rw [if_pos hf] at hb ⊢
        obtain ⟨h1, h2, h3, h4⟩ := hb
        exact ⟨h1, h2, by rw [h3, hcalls]; simp, h4⟩
      · rw [if_neg hf] at hb ⊢
        obtain ⟨h1, h2, h3, h4⟩ := hb
        exact ⟨h1, h2, by rw [h3, hcalls], _, h4, rfl, rfl, rfl⟩

/-- C3: whenever `buildEngine` reaches the loader (an engine is held and the path
exists) and the loader fails, or the loader succeeds and compilation fails,
`buildEngine` returns `-1`, issues exactly one call, the release of the engine,
leaves the handle absent, and records "database load fail:" respectively
"database compile fail:" followed by the message of `cl_strerror` for the
returned code. -/
theorem buildEngine_load_or_compile_failure (self : ClamavEngine) (lib : Lib) (env : BuildEnv)
    (h : Nat) (hE : self.engine_ = some h) (hP : env.path_ok = true)
    (hF : env.load_ret ≠ CL_SUCCESS ∨ (env.load_ret = CL_SUCCESS ∧ env.compile_ret ≠ CL_SUCCESS)) :
    let r := self.buildEngine lib env
    r.1 = -1 ∧ r.2.1.engine_ = none ∧
    r.2.2.calls = lib.calls ++ [Call.engine_free h] ∧
    engineAt r.2.2.engines h = none ∧
    r.2.1.err_info_ =
      (if env.load_ret ≠ CL_SUCCESS then "database load fail:" ++ env.cl_strerror env.load_ret
       else "database compile fail:" ++ env.cl_strerror env.compile_ret) := by
  rcases hF with hL | ⟨hL, hC⟩
  · simp [ClamavEngine.buildEngine, hE, hP, cl_load, hL, cl_engine_free, engineAt_removeAt_self]
  · simp [ClamavEngine.buildEngine, hE, hP, cl_load, hL, cl_engine_compile, hC, cl_engine_free,
      engineAt_removeAt_self]

/-- C2 (amended): whenever the database path exists and load and compile both
succeed on a live engine handle, `buildEngine` installs the pre-scan callback on
that engine, keeps it as the owned engine, returns `0` and stores the signature
count reported by the loader in `sig_num_` (with "OK" as the recorded reason). -/
theorem buildEngine_success (self : ClamavEngine) (lib : Lib) (env : BuildEnv) (h : Nat)
    (e : cl_engine) (hE : self.engine_ = some h) (hLive : engineAt lib.engines h = some e)
    (hP : env.path_ok = true) (hL : env.load_ret = CL_SUCCESS)
    (hC : env.compile_ret = CL_SUCCESS) :
    let r := self.buildEngine lib env
    r.1 = 0 ∧ r.2.1.engine_ = some h ∧
    engineAt r.2.2.engines h =
      some { e with loaded := true, compiled := true, cb_pre_scan := true } ∧
    r.2.2.calls = lib.calls ∧
    r.2.1.sig_num_ = env.load_sigs ∧ r.2.1.err_info_ = "OK" := by
  simp [ClamavEngine.buildEngine, hE, hP, cl_load, hL, cl_engine_compile, hC,
    cl_engine_set_clcb_pre_scan, engineAt_updateAt_self, hLive]

/-- After `setSettings` on a live engine, the engine carries every non-zero limit of the argument. -/
theorem setSettings_limits (self : ClamavEngine) (settings : ClamavSettings) (lib : Lib)
    (h : Nat) (e : cl_engine) (hE : self.engine_ = some h)
    (hLive : engineAt lib.engines h = some e) :
    ∃ e2, engineAt (self.setSettings settings lib).2.engines h = some e2 ∧
      (self.setSettings settings lib).2.fresh = lib.fresh ∧
      (settings.max_file_size ≠ 0 → e2.limits.maxfilesize = settings.max_file_size) ∧
      (settings.max_scan_size ≠ 0 → e2.limits.maxscansize = settings.max_scan_size) := by
  by_cases hf : settings.max_file_size = 0 <;> by_cases hsz : settings.max_scan_size = 0 <;>
    simp [ClamavEngine.setSettings, cl_engine_set_num, hE, hf, hsz, engineAt_updateAt_self,
      hLive, setField]

/-- C6: for every non-zero limit value, if `setSettings` sets `max_file_size`
(respectively `max_scan_size`) on a live engine, the settings copy succeeds and
`reBuildEngine` then returns `0`, the rebuilt engine reports that value for
that limit, both through `cl_engine_get_num` and in what `getSettings` prints.
The return code of `cl_engine_settings_apply`, which the wrapper only logs, is
arbitrary. -/
theorem reBuildEngine_preserves_limits (self : ClamavEngine) (settings : ClamavSettings)
    (lib : Lib) (env : RebuildEnv) (h : Nat) (e : cl_engine)
    (hE : self.engine_ = some h) (hLive : engineAt lib.engines h = some e)
    (hCopy : env.copy_ok = true)
    (hOk : (self.reBuildEngine (self.setSettings settings lib).2 env).1 = 0) :
    let r := self.reBuildEngine (self.setSettings settings lib).2 env
    (settings.max_file_size ≠ 0 →
      cl_engine_get_num r.2.1.engine_ .CL_ENGINE_MAX_FILESIZE r.2.2 = settings.max_file_size ∧
      (r.2.1.getSettings r.2.2).2.1 = settings.max_file_size) ∧
    (settings.max_scan_size ≠ 0 →
      cl_engine_get_num r.2.1.engine_ .CL_ENGINE_MAX_SCANSIZE r.2.2 = settings.max_scan_size ∧
      (r.2.1.getSettings r.2.2).2.2 = settings.max_scan_size) := by
  intro r
  obtain ⟨e2, he2, hfresh, hfile, hscan⟩ := setSettings_limits self settings lib h e hE hLive
  have hn : env.new_ok = true := by
    cases hn : env.new_ok
    · exfalso
      revert hOk
      simp [ClamavEngine.reBuildEngine, ClamavEngine.buildEngine, cl_engine_new, hn, hE]
    · rfl
  obtain ⟨lib3, st, hr, -, heng, hst⟩ :=
    reBuildEngine_prepares self (self.setSettings settings lib).2 env hn
  have hlim : st = e2.limits := hst h e2 hE he2 hCopy
  have hb := buildEngine_outcome
    ({ self with engine_ := some (self.setSettings settings lib).2.fresh } : ClamavEngine)
    lib3 env.build _ _ rfl heng
  rw [← hr] at hb
  have hfail : ∀ {P : Prop}, (self.reBuildEngine (self.setSettings settings lib).2 env).1 = -1 ∧ P
      → False := by
    intro P hP
    rw [hOk] at hP
    exact absurd hP.1 (by decide)
  by_cases hp : env.build.path_ok = false
  · rw [if_pos hp] at hb
    exact (hfail hb).elim
  · rw [if_neg hp] at hb
    by_cases hf : env.build.load_ret ≠ CL_SUCCESS ∨ env.build.compile_ret ≠ CL_SUCCESS
    · rw [if_pos hf] at hb
      exact (hfail hb).elim
    · rw [if_neg hf] at hb
      obtain ⟨-, h2, -, h4⟩ := hb
      have hget : ∀ f, cl_engine_get_num r.2.1.engine_ f r.2.2 = getField f e2.limits := by
        intro f
        simp [r, h2, cl_engine_get_num, h4, hlim]
      refine ⟨fun hv => ⟨?_, ?_⟩, fun hv => ⟨?_, ?_⟩⟩
      · rw [hget, getField, hfile hv]
      · simp only [ClamavEngine.getSettings]
        rw [hget, getField, hfile hv]
      · rw [hget, getField, hscan hv]
      · simp only [ClamavEngine.getSettings]
        rw [hget, getField, hscan hv]

/-- A check against a baseline that equals the directory returns `0` and changes nothing. -/
theorem checkDatebaseChanged_unchanged (self : ClamavEngine) (p : String) (d : DirState)
    (ini : Option DirState) (h : self.dbstat_ = some ⟨some p, d⟩) :
    self.checkDatebaseChanged (some d) ini = (0, self) := by
  simp [ClamavEngine.checkDatebaseChanged, h, cl_statchkdir, CL_SUCCESS]

/-- A check that returns `1` leaves the token that `cl_statinidir` produced on the refresh,
and keeps the database path. -/
theorem checkDatebaseChanged_refresh (self : ClamavEngine) (chk ini : Option DirState)
    (hStale : (self.checkDatebaseChanged chk ini).1 = 1) :
    (self.checkDatebaseChanged chk ini).2.dbstat_ =
      some (cl_statinidir self.db_path_ ⟨none, []⟩ ini).2 := by
  cases hd : self.dbstat_ with
  | none => simp [ClamavEngine.checkDatebaseChanged, hd] at hStale
  | some st =>
    have hret : (1 : Int) = cl_statchkdir st chk := by
      by_cases hc : (1 : Int) = cl_statchkdir st chk
      · exact hc
      · simp [ClamavEngine.checkDatebaseChanged, hd, hc] at hStale
        exact absurd hStale.symm hc
    simp only [ClamavEngine.checkDatebaseChanged, hd, if_pos hret, cl_statfree]
    split_ifs <;> rfl

/-- C7: if a call to `checkDatebaseChanged` returns `1` (stale) and the second
call finds the directory as the refresh of the first call found it, the second
call does not return `1`; when the refresh could read the directory, the first
call replaced the baseline with that fresh snapshot and the second call returns
`0` and changes nothing. -/
theorem checkDatebaseChanged_stale_once (self : ClamavEngine) (chk1 ini1 ini2 : Option DirState)
    (hStale : (self.checkDatebaseChanged chk1 ini1).1 = 1) :
    let r1 := self.checkDatebaseChanged chk1 ini1
    let r2 := r1.2.checkDatebaseChanged ini1 ini2
    r2.1 ≠ 1 ∧
    (∀ d, ini1 = some d →
      r1.2.dbstat_ = some ⟨some self.db_path_, d⟩ ∧ r2.1 = 0 ∧ r2.2 = r1.2) := by
  intro r1 r2
  have h1 : r1.2.dbstat_ = some (cl_statinidir self.db_path_ ⟨none, []⟩ ini1).2 :=
    checkDatebaseChanged_refresh self chk1 ini1 hStale
  cases ini1 with
  | none =>
    refine ⟨?_, fun d hd => by simp at hd⟩
    simp [r2, ClamavEngine.checkDatebaseChanged, h1, cl_statinidir, cl_statchkdir, CL_ENULLARG]
  | some d =>
    have h0 : r2 = (0, r1.2) :=
      checkDatebaseChanged_unchanged r1.2 self.db_path_ d ini2 (by rw [h1]; rfl)
    refine ⟨by rw [h0]; simp, fun d2 hd => ?_⟩
    injection hd with hd
    subst hd
    exact ⟨by rw [h1]; rfl, by rw [h0], by rw [h0]⟩

/-- `buildEngine` changes neither the snapshot nor the database path. -/
theorem buildEngine_dbstat (self : ClamavEngine) (lib : Lib) (env : BuildEnv) :
    (self.buildEngine lib env).2.1.dbstat_ = self.dbstat_ ∧
    (self.buildEngine lib env).2.1.db_path_ = self.db_path_ := by
  simp only [ClamavEngine.buildEngine]
  split
  · exact ⟨rfl, rfl⟩
  · split_ifs <;> exact ⟨rfl, rfl⟩

/-- C10 (amended): `buildEngine` never touches the database snapshot, so the
staleness baseline is the snapshot taken at construction or by the last check
that detected staleness. If the baseline holds the directory state `d0` and the
directory changed to `d1` before the build and not afterwards, the first
`checkDatebaseChanged` after the build returns `1` (stale) and refreshes the
baseline, and the call after it returns `0`. -/
theorem buildEngine_keeps_snapshot (self : ClamavEngine) (lib : Lib) (env : BuildEnv)
    (p : String) (d0 d1 : DirState) (ini2 : Option DirState)
    (hSnap : self.dbstat_ = some ⟨some p, d0⟩) (hChanged : d1 ≠ d0) :
    let b := self.buildEngine lib env
    let c1 := b.2.1.checkDatebaseChanged (some d1) (some d1)
    let c2 := c1.2.checkDatebaseChanged (some d1) ini2
    b.2.1.dbstat_ = self.dbstat_ ∧ c1.1 = 1 ∧ c2.1 = 0 := by
  intro b c1 c2
  have hb : b.2.1.dbstat_ = some ⟨some p, d0⟩ := by
    rw [← hSnap]; exact (buildEngine_dbstat self lib env).1
  have h1 : c1.1 = 1 := by
    simp [c1, ClamavEngine.checkDatebaseChanged, hb, cl_statchkdir, hChanged]
  refine ⟨by rw [hb, hSnap], h1, ?_⟩
  have hc1 : c1.2.dbstat_ = some ⟨some b.2.1.db_path_, d1⟩ := by
    rw [checkDatebaseChanged_refresh b.2.1 (some d1) (some d1) h1]
    rfl
  have h2 : c2 = (0, c1.2) := checkDatebaseChanged_unchanged c1.2 _ d1 ini2 hc1
  rw [h2]

/-! ## Concrete runs -/

/-- C2 (counterexample): on a freshly constructed object whose path exists and
whose load and compile succeed, the loader reports five signatures, and
`buildEngine` returns `0`, not the signature count. -/
theorem buildEngine_returns_status_not_count :
    exampleFresh.1.engine_ = some 0 ∧
    (engineAt exampleFresh.2.engines 0).isSome = true ∧
    (exampleBuildEnv true 0 0).path_ok = true ∧
    (exampleBuildEnv true 0 0).load_ret = CL_SUCCESS ∧
    (exampleBuildEnv true 0 0).compile_ret = CL_SUCCESS ∧
    (exampleBuildEnv true 0 0).load_sigs = 5 ∧
    (exampleFresh.1.buildEngine exampleFresh.2 (exampleBuildEnv true 0 0)).1 = 0 ∧
    (exampleFresh.1.buildEngine exampleFresh.2 (exampleBuildEnv true 0 0)).1 ≠
      ((exampleBuildEnv true 0 0).load_sigs : Int) := by
  decide

/-- C2 (witness): the amended statement at `exampleFresh`. -/
theorem buildEngine_success_witness :
    (exampleFresh.1.engine_ = some 0 ∧
      engineAt exampleFresh.2.engines 0 = some ⟨⟨104857600, 26214400⟩, false, false, false⟩ ∧
      (exampleBuildEnv true 0 0).path_ok = true ∧
      (exampleBuildEnv true 0 0).load_ret = CL_SUCCESS ∧
      (exampleBuildEnv true 0 0).compile_ret = CL_SUCCESS) ∧
    (let r := exampleFresh.1.buildEngine exampleFresh.2 (exampleBuildEnv true 0 0)
     r.1 = 0 ∧ r.2.1.engine_ = some 0 ∧
     engineAt r.2.2.engines 0 = some ⟨⟨104857600, 26214400⟩, true, true, true⟩ ∧
     r.2.2.calls = exampleFresh.2.calls ∧
     r.2.1.sig_num_ = (exampleBuildEnv true 0 0).load_sigs ∧ r.2.1.err_info_ = "OK") :=
  ⟨by decide,
    buildEngine_success exampleFresh.1 exampleFresh.2 (exampleBuildEnv true 0 0) 0
      ⟨⟨104857600, 26214400⟩, false, false, false⟩ (by decide) (by decide) (by decide)
      (by decide) (by decide)⟩

/-- C3 (witness): the loader fails with code `4` on `exampleFresh`. -/
theorem buildEngine_load_failure_witness :
    (exampleFresh.1.engine_ = some 0 ∧ (exampleBuildEnv true 4 0).path_ok = true ∧
      ((exampleBuildEnv true 4 0).load_ret ≠ CL_SUCCESS ∨
        ((exampleBuildEnv true 4 0).load_ret = CL_SUCCESS ∧
          (exampleBuildEnv true 4 0).compile_ret ≠ CL_SUCCESS))) ∧
    (let r := exampleFresh.1.buildEngine exampleFresh.2 (exampleBuildEnv true 4 0)
     r.1 = -1 ∧ r.2.1.engine_ = none ∧
     r.2.2.calls = exampleFresh.2.calls ++ [Call.engine_free 0] ∧
     engineAt r.2.2.engines 0 = none ∧
     r.2.1.err_info_ =
      (if (exampleBuildEnv true 4 0).load_ret ≠ CL_SUCCESS then
        "database load fail:" ++ (exampleBuildEnv true 4 0).cl_strerror
          (exampleBuildEnv true 4 0).load_ret
       else "database compile fail:" ++ (exampleBuildEnv true 4 0).cl_strerror
          (exampleBuildEnv true 4 0).compile_ret)) :=
  ⟨by decide,
    buildEngine_load_or_compile_failure exampleFresh.1 exampleFresh.2 (exampleBuildEnv true 4 0) 0
      (by decide) (by decide) (by decide)⟩

/-- C4 (counterexample): on `exampleNoDb`, constructed on a path that does not
exist, `buildEngine` returns `-1` with "database path not found", and the object
still holds engine `0`, live and not compiled: it is not without an engine. -/
theorem buildEngine_path_not_found_keeps_engine :
    (exampleBuildEnv false 0 0).path_ok = false ∧
    (exampleNoDb.1.buildEngine exampleNoDb.2 (exampleBuildEnv false 0 0)).1 = -1 ∧
    (exampleNoDb.1.buildEngine exampleNoDb.2 (exampleBuildEnv false 0 0)).2.1.err_info_ =
      "database path not found" ∧
    (exampleNoDb.1.buildEngine exampleNoDb.2 (exampleBuildEnv false 0 0)).2.1.engine_ = some 0 ∧
    (exampleNoDb.1.buildEngine exampleNoDb.2 (exampleBuildEnv false 0 0)).2.1.engine_ ≠ none ∧
    engineAt (exampleNoDb.1.buildEngine exampleNoDb.2 (exampleBuildEnv false 0 0)).2.2.engines 0 =
      some ⟨⟨104857600, 26214400⟩, false, false, false⟩ := by
  decide

/-- C4 (witness): the amended statement at the construction of `exampleNoDb`. -/
theorem buildEngine_path_not_found_witness :
    (exampleBuildEnv false 0 0).path_ok = false ∧
    (let c := ClamavEngine.construct "/nodb" exampleFlags ⟨0, true, none⟩ exampleLib
     let b := c.1.buildEngine c.2 (exampleBuildEnv false 0 0)
     b.1 = -1 ∧ b.2.2 = c.2 ∧
     ((⟨0, true, none⟩ : CtorEnv).new_ok = true →
       b.2.1.err_info_ = "database path not found" ∧ b.2.1.engine_ = some exampleLib.fresh ∧
       engineAt b.2.2.engines exampleLib.fresh = some ⟨exampleLib.defaults, false, false, false⟩) ∧
     ((⟨0, true, none⟩ : CtorEnv).new_ok = false →
       b.2.1.err_info_ = "engine_ init NULL" ∧ b.2.1.engine_ = none)) :=
  ⟨by decide,
    buildEngine_path_not_found "/nodb" exampleFlags ⟨0, true, none⟩ exampleLib
      (exampleBuildEnv false 0 0) (by decide)⟩

/-- C5 (counterexample): `reBuildEngine` on the ready object `exampleReady`, with
the database path gone, returns `-1` and leaves the object holding engine `1`,
which is live and neither loaded nor compiled. -/
theorem reBuildEngine_error_keeps_uncompiled_engine :
    exampleReady.1.engine_ = some 0 ∧
    (exampleReady.1.reBuildEngine exampleReady.2
      ⟨true, true, 0, exampleBuildEnv false 0 0⟩).1 = -1 ∧
    (exampleReady.1.reBuildEngine exampleReady.2
      ⟨true, true, 0, exampleBuildEnv false 0 0⟩).2.1.engine_ = some 1 ∧
    (exampleReady.1.reBuildEngine exampleReady.2
      ⟨true, true, 0, exampleBuildEnv false 0 0⟩).2.1.engine_ ≠ none ∧
    engineAt (exampleReady.1.reBuildEngine exampleReady.2
      ⟨true, true, 0, exampleBuildEnv false 0 0⟩).2.2.engines 1 =
      some ⟨⟨104857600, 26214400⟩, false, false, false⟩ := by
  decide

/-- C6 (witness): `max_file_size = 1024` on the live engine of `exampleReady`,
the settings copy succeeds and the rebuild returns `0`. -/
theorem reBuildEngine_preserves_limits_witness :
    (exampleReady.1.engine_ = some 0 ∧
      engineAt exampleReady.2.engines 0 = some ⟨⟨104857600, 26214400⟩, true, true, true⟩ ∧
      (⟨true, true, 0, exampleBuildEnv true 0 0⟩ : RebuildEnv).copy_ok = true ∧
      (exampleReady.1.reBuildEngine (exampleReady.1.setSettings ⟨1024, 0⟩ exampleReady.2).2
        ⟨true, true, 0, exampleBuildEnv true 0 0⟩).1 = 0) ∧
    (let r := exampleReady.1.reBuildEngine (exampleReady.1.setSettings ⟨1024, 0⟩ exampleReady.2).2
        ⟨true, true, 0, exampleBuildEnv true 0 0⟩
     ((⟨1024, 0⟩ : ClamavSettings).max_file_size ≠ 0 →
       cl_engine_get_num r.2.1.engine_ .CL_ENGINE_MAX_FILESIZE r.2.2 =
         (⟨1024, 0⟩ : ClamavSettings).max_file_size ∧
       (r.2.1.getSettings r.2.2).2.1 = (⟨1024, 0⟩ : ClamavSettings).max_file_size) ∧
     ((⟨1024, 0⟩ : ClamavSettings).max_scan_size ≠ 0 →
       cl_engine_get_num r.2.1.engine_ .CL_ENGINE_MAX_SCANSIZE r.2.2 =
         (⟨1024, 0⟩ : ClamavSettings).max_scan_size ∧
       (r.2.1.getSettings r.2.2).2.2 = (⟨1024, 0⟩ : ClamavSettings).max_scan_size)) :=
  ⟨by decide,
    reBuildEngine_preserves_limits exampleReady.1 ⟨1024, 0⟩ exampleReady.2
      ⟨true, true, 0, exampleBuildEnv true 0 0⟩ 0 ⟨⟨104857600, 26214400⟩, true, true, true⟩
      (by decide) (by decide) (by decide) (by decide)⟩

/-- C7 (witness): the database file of `exampleFresh` got a new timestamp. -/
theorem checkDatebaseChanged_stale_once_witness :
    (exampleFresh.1.checkDatebaseChanged (some [("main.cvd", 2)]) (some [("main.cvd", 2)])).1 = 1 ∧
    (let r1 := exampleFresh.1.checkDatebaseChanged (some [("main.cvd", 2)]) (some [("main.cvd", 2)])
     let r2 := r1.2.checkDatebaseChanged (some [("main.cvd", 2)]) (some [("main.cvd", 2)])
     r2.1 ≠ 1 ∧
     (∀ d, some [("main.cvd", 2)] = some d →
       r1.2.dbstat_ = some ⟨some exampleFresh.1.db_path_, d⟩ ∧ r2.1 = 0 ∧ r2.2 = r1.2)) :=
  ⟨by decide,
    checkDatebaseChanged_stale_once exampleFresh.1 (some [("main.cvd", 2)])
      (some [("main.cvd", 2)]) (some [("main.cvd", 2)]) (by decide)⟩

/-- C10 (counterexample): `exampleFresh` took its snapshot when the database file
had timestamp `1`; the file then got timestamp `2` and `buildEngine` succeeded.
The snapshot of `exampleReady` is still the one of the construction, and the
check after the build returns `1` (stale). -/
theorem buildEngine_does_not_reset_snapshot :
    (exampleFresh.1.buildEngine exampleFresh.2 (exampleBuildEnv true 0 0)).1 = 0 ∧
    exampleReady.1.dbstat_ = some ⟨some "/db", [("main.cvd", 1)]⟩ ∧
    exampleReady.1.dbstat_ ≠ some ⟨some "/db", [("main.cvd", 2)]⟩ ∧
    (exampleReady.1.checkDatebaseChanged (some [("main.cvd", 2)]) (some [("main.cvd", 2)])).1
      = 1 := by
  decide

/-- C10 (witness): the amended statement at `exampleFresh`. -/
theorem buildEngine_keeps_snapshot_witness :
    (exampleFresh.1.dbstat_ = some ⟨some "/db", [("main.cvd", 1)]⟩ ∧
      ([("main.cvd", 2)] : DirState) ≠ [("main.cvd", 1)]) ∧
    (let b := exampleFresh.1.buildEngine exampleFresh.2 (exampleBuildEnv true 0 0)
     let c1 := b.2.1.checkDatebaseChanged (some [("main.cvd", 2)]) (some [("main.cvd", 2)])
     let c2 := c1.2.checkDatebaseChanged (some [("main.cvd", 2)]) (some [("main.cvd", 2)])
     b.2.1.dbstat_ = exampleFresh.1.dbstat_ ∧ c1.1 = 1 ∧ c2.1 = 0) :=
  ⟨by decide,
    buildEngine_keeps_snapshot exampleFresh.1 exampleFresh.2 (exampleBuildEnv true 0 0) "/db"
      [("main.cvd", 1)] [("main.cvd", 2)] (some [("main.cvd", 2)]) (by decide) (by decide)⟩

end Clamav
